import Mathlib

/-!
Verification of the UPS monitor scripts (`UPS_Monitor_PC_MQTT.py`,
`UPS_monitor_PC.py`, `Modbus_test.py`, `MQTT_test.py`) against their
natural-language specification.  The Python code is shallowly embedded:
numeric values are exact rationals, uint16 register words are `Nat`,
fallible reads are `Option`, and control flow (try/except/finally) is made
explicit.
-/

namespace UPS

/-- Result of decoding one register reading, the semantic content of the
formatted strings the scripts print.  `celsius` marks a value that went
through the Kelvin→Celsius branch. -/
inductive DecodedValue where
  | unavailable
  | numeric (value : ℚ) (raw : Nat)
  | celsius (value : ℚ) (raw : Nat)
  | text (chars : List Char)
deriving DecidableEq

/-- Python `raw / scale if scale else raw`: `scale` is falsy when it is
`None` or `0`. -/
def scaledValue (raw : ℚ) (scale : Option ℚ) : ℚ :=
  match scale with
  | some s => if s = 0 then raw else raw / s
  | none => raw

/-- Python `str.strip(chr(0))`: drop NUL characters from both ends. -/
def stripNul (cs : List Char) : List Char :=
  ((cs.dropWhile (fun c => c = Char.ofNat 0)).reverse.dropWhile
    (fun c => c = Char.ofNat 0)).reverse

/-- `''.join(chr((raw_value >> (8 * i)) & 0xFF) for i in reversed(range(4)))`
followed by `.strip(chr(0))` (UPS_Monitor_PC_MQTT.py line 141-142). -/
def asciiOfWord32 (raw_value : Nat) : List Char :=
  stripNul ([3, 2, 1, 0].map (fun i => Char.ofNat ((raw_value >>> (8 * i)) &&& 0xFF)))

/-- `''.join(chr((word >> 8) & 0xFF) + chr(word & 0xFF) for word in values)`
followed by `.strip('\x00')` (UPS_monitor_PC.py line 202). -/
def asciiOfWords (values : List Nat) : List Char :=
  stripNul (values.flatMap (fun w => [Char.ofNat ((w >>> 8) &&& 0xFF), Char.ofNat (w &&& 0xFF)]))

/-- `format_register_value` of UPS_Monitor_PC_MQTT.py (lines 118-144),
reduced to the decoded value carried by the returned string (the `label`
only affects padding and is dropped).  Branch structure follows the source:
all-0xFFFF sentinel first, then the one-word branch (sentinel, scale,
Kelvin, ASCII), then the multi-word branch combining `values[0]` and
`values[1]`. -/
def format_register_value (values : List Nat) (word_count : Nat)
    (unit : Option String) (scale : Option ℚ) : DecodedValue :=
  if values.all (fun v => v == 0xFFFF) then
    .unavailable
  else if word_count = 1 then
    let raw := values.headD 0
    if raw = 0xFFFF then
      .unavailable
    else
      let value := scaledValue (raw : ℚ) scale
      if unit = some "K" then
        .celsius (value - 273.15) raw
      else if unit = some "ASCII" then
        .text [Char.ofNat raw]
      else
        .numeric value raw
  else
    let raw_value := (values.headD 0) <<< 16 + values.getD 1 0
    let value := scaledValue (raw_value : ℚ) scale
    if unit = some "ASCII" then
      .text (asciiOfWord32 raw_value)
    else
      .numeric value raw_value

/-- The per-register decode performed inline by the UPS_monitor_PC.py main
loop (lines 197-222): the ASCII register is recognised by its label
"Device Name"; the single-word branch checks the 0xFFFF sentinel and the
Kelvin unit; the multi-word branch combines `values[0]` and `values[1]`
with NO sentinel check. -/
def monitor_decode (label : String) (values : List Nat) (word_count : Nat)
    (unit : Option String) (scale : Option ℚ) : DecodedValue :=
  if label = "Device Name" then
    if values.all (fun v => v == 0xFFFF) then
      .unavailable
    else
      .text (asciiOfWords values)
  else if word_count = 1 then
    let raw := values.headD 0
    if raw = 0xFFFF then
      .unavailable
    else
      let value := scaledValue (raw : ℚ) scale
      if unit = some "K" then
        .celsius (value - 273.15) raw
      else
        .numeric value raw
  else
    let raw_value := (values.headD 0) <<< 16 + values.getD 1 0
    .numeric (scaledValue (raw_value : ℚ) scale) raw_value

/-- The register catalog shared verbatim by UPS_Monitor_PC_MQTT.py
(lines 26-40) and UPS_monitor_PC.py (lines 137-151):
address, label, word count, unit, scale. -/
def registers : List (Nat × String × Nat × Option String × Option ℚ) :=
  [ (0x2000, "Status Functions", 4, none, none)
  , (0x2002, "Status Interface", 2, none, none)
  , (0x2006, "Output Voltage", 1, some "V", some 1000)
  , (0x2007, "Output Current", 1, some "mA", some 1)
  , (0x200A, "Battery Voltage", 1, some "V", some 1000)
  , (0x200B, "Battery Current", 1, some "mA", some 1)
  , (0x200D, "Battery Temperature", 1, some "K", some 1)
  , (0x200E, "Device Temperature", 1, some "K", some 1)
  , (0x203C, "Remaining Time PC Shutdown (t31)", 1, some "min", some 60)
  , (0x2024, "Battery Mode Time", 2, some "min", some 60)
  , (0x2026, "User Battery Mode Time", 2, some "min", some 60)
  , (0x1064, "Battery Capacity", 1, some "100mAh", some 10)
  , (0x0010, "Device Name", 2, some "ASCII", none)
  ]

/-- SOC computation of UPS_Monitor_PC_MQTT.py main (lines 251-266): only a
successful read with raw ≠ 0xFFFF yields a value; the linear estimate is
clamped with `max(0, min(100, soc))`. -/
def mqtt_soc (raw_voltage : Nat) : Option ℚ :=
  if raw_voltage ≠ 0xFFFF then
    let battery_voltage : ℚ := (raw_voltage : ℚ) / 1000
    let soc := 100 * (battery_voltage - 20.4) / (27.5 - 20.4)
    some (max 0 (min 100 soc))
  else
    none

/-- SOC computation of UPS_monitor_PC.py (lines 224-232): computed for every
successfully read raw word, with no 0xFFFF sentinel check. -/
def monitor_soc (raw : Nat) : ℚ :=
  let battery_voltage : ℚ := (raw : ℚ) / 1000
  let soc := 100 * (battery_voltage - 20.4) / (27.5 - 20.4)
  max 0 (min 100 soc)

/-- The guard around the UPS_monitor_PC.py SOC computation: the sample is
produced (and appended to `SOC_HISTORY`) whenever the 0x200A read
succeeded, regardless of the register's content. -/
def monitor_soc_sample (read : Option (List Nat)) (t : ℚ) : Option (ℚ × ℚ) :=
  match read with
  | some regs => some (t, monitor_soc (regs.headD 0))
  | none => none

/-- `collections.deque(maxlen=n).append x`: append on the right and, when
the length would exceed `maxlen`, discard from the left. -/
def dequeAppend (maxlen : Nat) (h : List α) (x : α) : List α :=
  let h' := h ++ [x]
  if maxlen < h'.length then h'.drop (h'.length - maxlen) else h'

/-- One insert into the SOC history ring: `soc_history.append((t, soc))`
on the `deque(maxlen=600)` of both scripts (UPS_Monitor_PC_MQTT.py
line 189/261, UPS_monitor_PC.py line 154/232). -/
def soc_record (h : List (ℚ × ℚ)) (sample : ℚ × ℚ) : List (ℚ × ℚ) :=
  dequeAppend 600 h sample

/-- Folding a whole sequence of samples into an initially empty history. -/
def soc_record_all (samples : List (ℚ × ℚ)) : List (ℚ × ℚ) :=
  samples.foldl soc_record []

/-- The trailing-window filter applied when the trend graph reads the
history (`[s for t, s in soc_history if t >= now - 600]`,
UPS_Monitor_PC_MQTT.py lines 88-90, UPS_monitor_PC.py lines 237-239). -/
def soc_window (now : ℚ) (h : List (ℚ × ℚ)) : List ℚ :=
  (h.filter (fun p => now - 600 ≤ p.1)).map (fun p => p.2)

/-- Python `round(x, ndigits)` (banker's rounding, half to even), taken on
exact rationals. -/
def pyRound (ndigits : Nat) (q : ℚ) : ℚ :=
  let m : ℚ := q * (10 ^ ndigits)
  let f : ℤ := ⌊m⌋
  let r : ℚ := m - (f : ℚ)
  let n : ℤ :=
    if r < 1 / 2 then f
    else if 1 / 2 < r then f + 1
    else if f % 2 = 0 then f else f + 1
  (n : ℚ) / (10 ^ ndigits)

/-- A broken-down local time, the input to `time.strftime`. -/
structure Tm where
  year : Nat
  month : Nat
  day : Nat
  hour : Nat
  minute : Nat
  second : Nat
deriving DecidableEq

/-- Two-digit zero-padded decimal rendering (`%m`, `%d`, `%H`, `%M`, `%S`). -/
def pad2 (n : Nat) : List Char :=
  [Nat.digitChar (n / 10 % 10), Nat.digitChar (n % 10)]

/-- Four-digit zero-padded decimal rendering (`%Y`, for years below 10000). -/
def pad4 (n : Nat) : List Char :=
  [Nat.digitChar (n / 1000 % 10), Nat.digitChar (n / 100 % 10),
   Nat.digitChar (n / 10 % 10), Nat.digitChar (n % 10)]

/-- `time.strftime('%Y-%m-%d %H:%M:%S')`, the timestamp format used for the
CSV rows and the MQTT payload in both scripts. -/
def strftime_ymd_hms (t : Tm) : List Char :=
  pad4 t.year ++ '-' :: pad2 t.month ++ '-' :: pad2 t.day ++
    ' ' :: pad2 t.hour ++ ':' :: pad2 t.minute ++ ':' :: pad2 t.second

/-- One cell of a CSV data row: the empty string, a number, a boolean, or a
piece of text (the timestamp). -/
inductive CsvCell where
  | empty
  | num (q : ℚ)
  | boolCell (b : Bool)
  | str (chars : List Char)
deriving DecidableEq

/-- The per-cycle data the UPS_Monitor_PC_MQTT.py main loop feeds into its
CSV row and MQTT payload.  The `Option (List Nat)` fields are
`register_values.get(label)`: `none` models both a failed read (stored as
`None`) and an absent key; a successful read stores the raw word list. -/
structure MqttCycleData where
  battery_voltage : Option ℚ
  output_current : Option (List Nat)
  battery_temperature : Option (List Nat)
  device_temperature : Option (List Nat)
  battery_current : Option (List Nat)
  soc : Option ℚ
  battery_mode : Bool
  battery_present : Bool
  temp_sensor_connected : Bool
  mqtt_published : Bool

/-- The `battery_temperature` field of `payload_data`
(UPS_Monitor_PC_MQTT.py line 300): rendered only when the register was read
and is not the 0xFFFF sentinel, as `raw - 273.15`; Python's truthiness test
makes `None` and the empty list both fall to `None`. -/
def payload_battery_temperature (regs : Option (List Nat)) : Option ℚ :=
  match regs with
  | some (v :: _) => if v ≠ 0xFFFF then some ((v : ℚ) - 273.15) else none
  | _ => none

/-- The CSV data row written by UPS_Monitor_PC_MQTT.py (lines 311-323), in
source order.  Each cell mirrors the corresponding Python expression,
including which fields test the 0xFFFF sentinel (the temperatures) and
which do not (the currents). -/
def mqtt_csv_row (ts : Tm) (d : MqttCycleData) : List CsvCell :=
  [ .str (strftime_ymd_hms ts)
  , match d.battery_voltage with
    | some v => .num (pyRound 3 v)
    | none => .empty
  , match d.output_current with
    | some (v :: _) => .num (v : ℚ)
    | _ => .empty
  , match d.battery_temperature with
    | some (v :: _) => if v ≠ 0xFFFF then .num ((v : ℚ) - 273.15) else .empty
    | _ => .empty
  , match d.device_temperature with
    | some (v :: _) => if v ≠ 0xFFFF then .num ((v : ℚ) - 273.15) else .empty
    | _ => .empty
  , match d.battery_current with
    | some (v :: _) => .num (v : ℚ)
    | _ => .empty
  , match d.soc with
    | some s => .num (pyRound 2 s)
    | none => .empty
  , .boolCell d.battery_mode
  , .boolCell d.battery_present
  , .boolCell d.temp_sensor_connected
  , .boolCell d.mqtt_published
  ]

/-- The per-cycle data UPS_monitor_PC.py has in scope when it writes its
CSV row (lines 261-303): the four fields of the second read loop start the
cycle as `None`; `battery_voltage` and `soc` are module-level leftovers. -/
structure MonitorCycleData where
  battery_voltage : Option ℚ
  battery_temp_c : Option ℚ
  device_temp_c : Option ℚ
  battery_current : Option ℚ
  output_current : Option ℚ
  soc : Option ℚ

/-- The CSV data row written by UPS_monitor_PC.py (lines 295-303), in source
order: timestamp, voltage, battery temperature, device temperature, battery
current, output current, SOC. -/
def monitor_csv_row (ts : Tm) (d : MonitorCycleData) : List CsvCell :=
  [ .str (strftime_ymd_hms ts)
  , match d.battery_voltage with
    | some v => .num (pyRound 3 v)
    | none => .empty
  , match d.battery_temp_c with
    | some v => .num (pyRound 2 v)
    | none => .empty
  , match d.device_temp_c with
    | some v => .num (pyRound 2 v)
    | none => .empty
  , match d.battery_current with
    | some v => .num (pyRound 2 v)
    | none => .empty
  , match d.output_current with
    | some v => .num (pyRound 2 v)
    | none => .empty
  , match d.soc with
    | some v => .num (pyRound 2 v)
    | none => .empty
  ]

/-- How UPS_monitor_PC.py's module-level `battery_voltage` evolves across a
cycle (lines 224-227): it is reassigned only when the 0x200A read succeeds;
a failed read leaves the value from the previous cycle in place. -/
def monitor_voltage_update (prev : Option ℚ) (read : Option (List Nat)) : Option ℚ :=
  match read with
  | some regs => some ((regs.headD 0 : ℚ) / 1000)
  | none => prev

/-- The header list of UPS_Monitor_PC_MQTT.py's `ensure_csv_header`
(lines 44-56). -/
def mqtt_csv_header : List String :=
  [ "Timestamp"
  , "Battery Voltage (V)"
  , "Output Current (mA)"
  , "Battery Temp (°C)"
  , "Device Temp (°C)"
  , "Battery Current (mA)"
  , "SOC (%)"
  , "Battery Mode"
  , "Battery Present"
  , "Temp Sensor Connected"
  , "MQTT Published"
  ]

/-- The header list of UPS_monitor_PC.py's `ensure_csv_header`
(lines 71-79). -/
def monitor_csv_header : List String :=
  [ "Timestamp"
  , "Battery Voltage (V)"
  , "Output Current (mA)"
  , "Battery Temp (°C)"
  , "Device Temp (°C)"
  , "Battery Current (mA)"
  , "SOC (%)"
  ]

/-- `','.join(header)`, as a character list. -/
def headerJoined (header : List String) : List Char :=
  (String.intercalate "," header).data

/-- The line `csv.writer(f).writerow(header)` emits: none of the header
fields contains a comma, quote or newline, so the writer outputs the plain
comma join followed by its default `\r\n` line terminator (the files are
opened with `newline=''`, so no further translation happens). -/
def writerowLine (header : List String) : List Char :=
  headerJoined header ++ ['\r', '\n']

/-- Python `f.readline()` then `f.readlines()` on a fresh handle: the first
component is the first line including its newline (or the whole content if
no newline exists), the second is the remaining bytes. -/
def readFirstLine (cs : List Char) : List Char × List Char :=
  let first := cs.takeWhile (fun c => c ≠ '\n')
  let rest := cs.dropWhile (fun c => c ≠ '\n')
  (first ++ rest.take 1, rest.drop 1)

/-- Python `str.strip()`: drop whitespace from both ends. -/
def pyStrip (cs : List Char) : List Char :=
  ((cs.dropWhile Char.isWhitespace).reverse.dropWhile Char.isWhitespace).reverse

/-- `ensure_csv_header` of UPS_monitor_PC.py (lines 70-100), on a file
modelled as `Option` (absent) of its byte content.  A missing file is
created holding just the header; an existing file whose stripped first
line differs from the joined header is rewritten as header + the bytes
after the first line; otherwise the file is untouched. -/
def ensure_csv_header_pc (file : Option (List Char)) : Option (List Char) :=
  match file with
  | none => some (writerowLine monitor_csv_header)
  | some content =>
    let fl := readFirstLine content
    if pyStrip fl.1 ≠ headerJoined monitor_csv_header then
      some (writerowLine monitor_csv_header ++ fl.2)
    else
      some content

/-- `ensure_csv_header` of UPS_Monitor_PC_MQTT.py (lines 42-61): it only
creates the file with the header when the file does not exist; an existing
file is never inspected or rewritten. -/
def ensure_csv_header_mqtt (file : Option (List Char)) : Option (List Char) :=
  match file with
  | none => some (writerowLine mqtt_csv_header)
  | some content => some content

/-- `LOG_INTERVAL = 5` (both scripts). -/
def LOG_INTERVAL : ℚ := 5

/-- How one `publish_mqtt` call can turn out: `result.rc == 0`, a nonzero
status, or an exception from `client.publish`. -/
inductive PublishOutcome where
  | success
  | failedStatus
  | exceptionRaised
deriving DecidableEq

/-- `publish_mqtt` of UPS_Monitor_PC_MQTT.py (lines 63-80): returns `True`
exactly on status 0; a nonzero status or an exception is logged and
returns `False` — the exception is caught inside, so the caller never sees
it. -/
def publish_mqtt (oc : PublishOutcome) : Bool :=
  match oc with
  | .success => true
  | .failedStatus => false
  | .exceptionRaised => false

/-- Steps (6)-(7) of the UPS_Monitor_PC_MQTT.py cycle (lines 304-325): the
publish, then the time-gated CSV write.  Returns
`(mqtt_published, csv_written, new last_log_time)`. -/
def mqtt_publish_then_log (oc : PublishOutcome) (now last_log_time : ℚ) :
    Bool × Bool × ℚ :=
  let mqtt_published := publish_mqtt oc
  if LOG_INTERVAL < now - last_log_time then
    (mqtt_published, true, now)
  else
    (mqtt_published, false, last_log_time)

/-- Whether the cycle's try body runs to completion or raises somewhere
mid-cycle. -/
inductive BodyOutcome where
  | completed
  | raised
deriving DecidableEq

/-- Observable connection-lifecycle events of one poll cycle. -/
inductive Ev where
  | clientCreated
  | connected
  | connectFailed
  | bodyRan
  | exceptionCaught
  | clientClosed
deriving DecidableEq

/-- Connection lifecycle of one UPS_Monitor_PC_MQTT.py cycle
(lines 192-333): a fresh `ModbusTcpClient` is constructed at the top of
every iteration; on connect failure the iteration is abandoned
(`continue`); otherwise the body runs inside `try`/`except`, and
`client.close()` sits in the `finally` block, so it runs on completion and
on a caught exception alike. -/
def mqtt_cycle_trace (connect_ok : Bool) (body : BodyOutcome) : List Ev :=
  Ev.clientCreated ::
    (if connect_ok then
      Ev.connected ::
        (match body with
         | .completed => [Ev.bodyRan]
         | .raised => [Ev.bodyRan, Ev.exceptionCaught]) ++ [Ev.clientClosed]
    else
      [Ev.connectFailed])

/-- Connection lifecycle of one UPS_monitor_PC.py cycle (lines 164-311):
a fresh `ModbusTcpClient` per iteration; `client.close()` (line 306) is the
last statement of the `try` body, and the `except` handler (lines 308-311)
does not close, so an exception raised mid-cycle skips the close. -/
def monitor_cycle_trace (connect_ok : Bool) (body : BodyOutcome) : List Ev :=
  Ev.clientCreated ::
    (if connect_ok then
      Ev.connected ::
        (match body with
         | .completed => [Ev.bodyRan, Ev.clientClosed]
         | .raised => [Ev.bodyRan, Ev.exceptionCaught])
    else
      [Ev.connectFailed])

/-! ## C1: the all-0xFFFF sentinel -/

/-- C1 counterexample: in the UPS_monitor_PC.py decode loop, the two-word
non-ASCII register "Battery Mode Time" whose words are both 0xFFFF is NOT
decoded as Unavailable — the multi-word branch has no sentinel check and
yields the numeric value 0xFFFFFFFF / 60. -/
theorem monitor_multiword_ffff_not_unavailable :
    monitor_decode "Battery Mode Time" [0xFFFF, 0xFFFF] 2 (some "min") (some 60)
        = DecodedValue.numeric ((4294967295 : ℚ) / 60) 4294967295 ∧
      monitor_decode "Battery Mode Time" [0xFFFF, 0xFFFF] 2 (some "min") (some 60)
        ≠ DecodedValue.unavailable := by
  have h1 : monitor_decode "Battery Mode Time" [0xFFFF, 0xFFFF] 2 (some "min") (some 60)
      = DecodedValue.numeric ((4294967295 : ℚ) / 60) 4294967295 := by
    unfold monitor_decode
    rw [if_neg (by decide : ¬ ("Battery Mode Time" = "Device Name"))]
    norm_num [scaledValue, Nat.shiftLeft_eq]
  exact ⟨h1, by rw [h1]; exact fun hcon => DecodedValue.noConfusion hcon⟩

/-- C1 (amended): for every raw word sequence consisting entirely of 0xFFFF,
`format_register_value` (UPS_Monitor_PC_MQTT.py) returns Unavailable
regardless of spec; the UPS_monitor_PC.py decode loop returns Unavailable
only for the ASCII "Device Name" register and for single-word registers,
not for multi-word non-ASCII registers. -/
theorem all_ffff_unavailable (label : String) (values : List Nat) (wc : Nat)
    (unit : Option String) (scale : Option ℚ)
    (hff : values.all (fun v => v == 0xFFFF) = true) :
    format_register_value values wc unit scale = .unavailable ∧
    (values.length = wc → (label = "Device Name" ∨ wc = 1) →
      monitor_decode label values wc unit scale = .unavailable) := by
  constructor
  · unfold format_register_value
    rw [if_pos hff]
  · intro hlen hcase
    unfold monitor_decode
    by_cases hl : label = "Device Name"
    · rw [if_pos hl, if_pos hff]
    · rw [if_neg hl]
      rcases hcase with h | h
      · exact absurd h hl
      · subst h
        obtain ⟨v, rfl⟩ := List.length_eq_one.mp hlen
        simp only [List.all_cons, List.all_nil, Bool.and_true, beq_iff_eq] at hff
        simp [hff]

/-- Witness for C1 (amended), at the four-word status register and at the
Device Name register. -/
theorem all_ffff_unavailable_witness :
    format_register_value [0xFFFF, 0xFFFF, 0xFFFF, 0xFFFF] 4 none none
        = .unavailable ∧
      monitor_decode "Device Name" [0xFFFF, 0xFFFF] 2 (some "ASCII") none
        = .unavailable :=
  ⟨(all_ffff_unavailable "Status Functions" _ 4 none none (by decide)).1,
   (all_ffff_unavailable "Device Name" [0xFFFF, 0xFFFF] 2 (some "ASCII") none
      (by decide)).2 (by decide) (Or.inl rfl)⟩

/-! ## C2: SOC estimation -/

/-- C2 counterexample: the UPS_monitor_PC.py SOC computation has no 0xFFFF
sentinel check — a successful read of the raw sentinel word yields a
recorded sample of SOC 100, not an absent value. -/
theorem monitor_soc_sentinel_gives_100 :
    monitor_soc_sample (some [0xFFFF]) 0 = some (0, 100) := by
  norm_num [monitor_soc_sample, monitor_soc]

/-- C2 (amended): the UPS_Monitor_PC_MQTT.py SOC estimate is `none` at the
0xFFFF sentinel and otherwise equals the clamped linear interpolation
`100 * (raw/1000 - 20.4) / (27.5 - 20.4)`, with the four calibration
points 20400 ↦ 0, 27500 ↦ 100, 30000 ↦ 100, 15000 ↦ 0; the
UPS_monitor_PC.py computation applies the same clamped formula but to
every successfully read raw word, the sentinel included. -/
theorem soc_estimate (raw : Nat) (h : raw ≠ 0xFFFF) :
    mqtt_soc raw
        = some (max 0 (min 100 (100 * ((raw : ℚ) / 1000 - 20.4) / (27.5 - 20.4)))) ∧
      mqtt_soc 0xFFFF = none ∧
      monitor_soc raw
        = max 0 (min 100 (100 * ((raw : ℚ) / 1000 - 20.4) / (27.5 - 20.4))) ∧
      mqtt_soc 20400 = some 0 ∧ mqtt_soc 27500 = some 100 ∧
      mqtt_soc 30000 = some 100 ∧ mqtt_soc 15000 = some 0 := by
  refine ⟨?_, by norm_num [mqtt_soc], rfl, by norm_num [mqtt_soc],
    by norm_num [mqtt_soc], by norm_num [mqtt_soc], by norm_num [mqtt_soc]⟩
  unfold mqtt_soc
  rw [if_pos h]

/-- Witness for C2 (amended), at the raw reading 24000 (24 V). -/
theorem soc_estimate_witness :
    mqtt_soc 24000
      = some (max 0 (min 100 (100 * ((24000 : ℚ) / 1000 - 20.4) / (27.5 - 20.4)))) :=
  (soc_estimate 24000 (by decide)).1

/-! ## C3: the SOC history ring -/

/-- The spec's stress scenario: samples at timestamps 0, 1, ..., 699, one
second apart, all with SOC 50. -/
def timedSamples (start count : Nat) : List (ℚ × ℚ) :=
  (List.range' start count).map (fun i : Nat => ((i : ℚ), 50))

/-- Folding inserts into the `deque(maxlen=600)` keeps exactly the most
recent 600 inserts. -/
theorem soc_record_all_eq_drop (l : List (ℚ × ℚ)) :
    soc_record_all l = l.drop (l.length - 600) := by
  induction l using List.reverseRecOn with
  | nil => rfl
  | append_singleton l x ih =>
    rw [soc_record_all, List.foldl_append]
    show soc_record (soc_record_all l) x = _
    rw [ih]
    rcases Nat.lt_or_ge l.length 600 with hlt | hge
    · have h0 : l.length - 600 = 0 := Nat.sub_eq_zero_of_le (Nat.le_of_lt hlt)
      rw [h0, List.drop_zero]
      simp only [soc_record, dequeAppend]
      rw [if_neg (by simp; omega)]
      have h1 : (l ++ [x]).length - 600 = 0 := by simp; omega
      rw [h1, List.drop_zero]
    · have hdlen : (l.drop (l.length - 600)).length = 600 := by
        rw [List.length_drop]; omega
      simp only [soc_record, dequeAppend]
      rw [if_pos (by simp [hdlen])]
      have h2 : (l.drop (l.length - 600) ++ [x]).length - 600 = 1 := by
        simp [hdlen]
      have h3 : (l ++ [x]).length - 600 = (l.length - 600) + 1 := by
        simp; omega
      rw [h2, h3,
        List.drop_append_of_le_length (by rw [hdlen]; omega),
        List.drop_append_of_le_length (by omega),
        List.drop_drop]

/-- C3 counterexample: the ring enforces no time window on insert — two
samples 1000 seconds apart are both retained, although the older one lies
outside the 600-second trailing window of the newer one. -/
theorem soc_ring_keeps_stale_sample :
    soc_record (soc_record [] ((0 : ℚ), 50)) ((1000 : ℚ), 50)
        = [((0 : ℚ), 50), ((1000 : ℚ), 50)] ∧
      (0 : ℚ) < 1000 - 600 := by
  constructor
  · rfl
  · norm_num

/-- C3 (amended): on insert the history enforces only the hard capacity of
600 entries (oldest evicted first); the 600-second trailing window is
applied when the trend graph reads the history, not on insert.  Inserting
700 samples one second apart nevertheless leaves exactly the most recent
600 samples, none older than 600 seconds from the latest timestamp. -/
theorem soc_history_ring (h : List (ℚ × ℚ)) (s : ℚ × ℚ) (hle : h.length ≤ 600) :
    ((soc_record h s).length ≤ 600 ∧
      (h.length = 600 → soc_record h s = h.tail ++ [s]) ∧
      (h.length < 600 → soc_record h s = h ++ [s])) ∧
    (soc_record_all (timedSamples 0 700) = timedSamples 100 600 ∧
      ∀ p ∈ soc_record_all (timedSamples 0 700), (699 : ℚ) - p.1 ≤ 600) := by
  have hlen : (timedSamples 0 700).length = 700 := by
    simp [timedSamples]
  have hdrop : soc_record_all (timedSamples 0 700) = timedSamples 100 600 := by
    rw [soc_record_all_eq_drop, hlen]
    show (timedSamples 0 700).drop 100 = _
    unfold timedSamples
    rw [← List.map_drop]
    congr 1
  refine ⟨⟨?_, ?_, ?_⟩, hdrop, ?_⟩
  · simp only [soc_record, dequeAppend]
    split
    · rw [List.length_drop]; omega
    · simp at *; omega
  · intro h600
    simp only [soc_record, dequeAppend]
    rw [if_pos (by simp [h600])]
    have h1 : (h ++ [s]).length - 600 = 1 := by simp [h600]
    rw [h1, List.drop_append_of_le_length (by omega), List.drop_one]
  · intro hlt
    simp only [soc_record, dequeAppend]
    rw [if_neg (by simp; omega)]
  · intro p hp
    rw [hdrop] at hp
    unfold timedSamples at hp
    simp only [List.mem_map] at hp
    obtain ⟨i, hi, rfl⟩ := hp
    have hibounds : 100 ≤ i ∧ i < 700 := by
      have := List.mem_range'_1.mp hi
      omega
    have hq : (100 : ℚ) ≤ (i : ℚ) := by exact_mod_cast hibounds.1
    simp only
    linarith

/-- Witness for C3 (amended): one insert into an empty history. -/
theorem soc_history_ring_witness :
    (soc_record [] ((0 : ℚ), 50)).length ≤ 600 :=
  (soc_history_ring [] ((0 : ℚ), 50) (by decide)).1.1

/-! ## C4: multi-word big-endian decode -/

/-- C4 (confirmed): for a multi-word non-ASCII register whose words are not
all 0xFFFF, both decoders combine the two most significant words
big-endian into `words[0] << 16 + words[1]` (equal to the 32-bit value
`words[0] * 2^16 + words[1]`, below `2^32` for uint16 words), divide by the
scale when one is present (and keep the raw value when the scale is
absent), and the spec's example `[0x0001, 0x0000]` with scale 60 yields raw
65536 and value 65536/60. -/
theorem multiword_decode (w0 w1 : Nat) (rest : List Nat) (unit : Option String)
    (scale : Option ℚ) (label : String)
    (hff : (w0 :: w1 :: rest).all (fun v => v == 0xFFFF) = false)
    (hascii : unit ≠ some "ASCII") (hlabel : label ≠ "Device Name")
    (hw0 : w0 < 65536) (hw1 : w1 < 65536) :
    format_register_value (w0 :: w1 :: rest) (2 + rest.length) unit scale
        = .numeric (scaledValue ((w0 <<< 16 + w1 : Nat) : ℚ) scale) (w0 <<< 16 + w1) ∧
      monitor_decode label (w0 :: w1 :: rest) (2 + rest.length) unit scale
        = .numeric (scaledValue ((w0 <<< 16 + w1 : Nat) : ℚ) scale) (w0 <<< 16 + w1) ∧
      w0 <<< 16 + w1 = w0 * 65536 + w1 ∧
      w0 <<< 16 + w1 < 4294967296 ∧
      (∀ s : ℚ, scale = some s → s ≠ 0 →
        scaledValue ((w0 <<< 16 + w1 : Nat) : ℚ) scale = ((w0 <<< 16 + w1 : Nat) : ℚ) / s) ∧
      (scale = none → scaledValue ((w0 <<< 16 + w1 : Nat) : ℚ) scale = ((w0 <<< 16 + w1 : Nat) : ℚ)) ∧
      format_register_value [1, 0] 2 (some "min") (some 60)
        = .numeric ((65536 : ℚ) / 60) 65536 := by
  have hsh : w0 <<< 16 = w0 * 65536 := by
    rw [Nat.shiftLeft_eq]
  refine ⟨?_, ?_, by omega, by omega, ?_, ?_, ?_⟩
  · unfold format_register_value
    rw [if_neg (by simp [hff]), if_neg (by omega : ¬ (2 + rest.length = 1)),
      if_neg hascii]
    rfl
  · unfold monitor_decode
    rw [if_neg hlabel, if_neg (by omega : ¬ (2 + rest.length = 1))]
    rfl
  · intro s hs hnz
    rw [hs]
    simp only [scaledValue]
    rw [if_neg hnz]
  · intro hs
    rw [hs]
    rfl
  · unfold format_register_value
    rw [if_neg (by decide), if_neg (by decide), if_neg (by decide)]
    norm_num [scaledValue, Nat.shiftLeft_eq]

/-- Witness for C4 at the spec's example register reading. -/
theorem multiword_decode_witness :
    format_register_value [1, 0] (2 + ([] : List Nat).length) (some "min") (some 60)
      = .numeric (scaledValue ((1 <<< 16 + 0 : Nat) : ℚ) (some 60)) (1 <<< 16 + 0) :=
  (multiword_decode 1 0 [] (some "min") (some 60) "Battery Mode Time"
    (by decide) (by decide) (by decide) (by decide) (by decide)).1

/-! ## C5: Kelvin to Celsius, subtracted exactly once -/

/-- C5 (confirmed): for a non-sentinel reading of the Battery Temperature
register (unit Kelvin, scale 1), the decoder returns the Celsius value
`raw - 273.15` (tagged as Celsius), the MQTT payload field and the CSV
battery-temperature cell carry exactly the same single-subtraction value,
that value is neither the raw Kelvin value nor a double-subtracted one, and
the register catalog does map 0x200D to Kelvin with scale 1. -/
theorem kelvin_single_subtraction (raw : Nat) (h : raw ≠ 0xFFFF) :
    format_register_value [raw] 1 (some "K") (some 1)
        = .celsius ((raw : ℚ) - 273.15) raw ∧
      payload_battery_temperature (some [raw]) = some ((raw : ℚ) - 273.15) ∧
      (∀ (ts : Tm) (d : MqttCycleData), d.battery_temperature = some [raw] →
        (mqtt_csv_row ts d).getD 3 .empty = .num ((raw : ℚ) - 273.15)) ∧
      ((raw : ℚ) - 273.15 ≠ (raw : ℚ)) ∧
      ((raw : ℚ) - 273.15 ≠ ((raw : ℚ) - 273.15) - 273.15) ∧
      registers.find? (fun r => r.1 == 0x200D)
        = some (0x200D, "Battery Temperature", 1, some "K", some (1 : ℚ)) := by
  refine ⟨?_, ?_, ?_, ?_, ?_, rfl⟩
  · simp [format_register_value, scaledValue, h]
  · simp [payload_battery_temperature, h]
  · intro ts d hd
    simp [mqtt_csv_row, hd, h]
  · intro hcon
    rw [sub_eq_self] at hcon
    norm_num at hcon
  · intro hcon
    have : (0 : ℚ) = -273.15 := by linarith
    norm_num at this

/-- Witness for C5 at the spec's Kelvin example reading 29815. -/
theorem kelvin_single_subtraction_witness :
    format_register_value [29815] 1 (some "K") (some 1)
      = .celsius ((29815 : ℚ) - 273.15) 29815 :=
  (kelvin_single_subtraction 29815 (by decide)).1

/-! ## C6: CSV header self-heal -/

/-- `readline` on content whose first line is `l` (no interior newline)
returns `l` with its newline, and leaves exactly the following bytes. -/
theorem readFirstLine_split (l r : List Char) (hl : '\n' ∉ l) :
    readFirstLine (l ++ '\n' :: r) = (l ++ ['\n'], r) := by
  have hp : ∀ a ∈ l, a ≠ '\n' := fun a ha hcon => hl (hcon ▸ ha)
  unfold readFirstLine
  rw [List.takeWhile_append_of_pos (by simpa using hp),
    List.dropWhile_append_of_pos (by simpa using hp)]
  simp

/-- C6 counterexample: the UPS_Monitor_PC_MQTT.py `ensure_csv_header` does
not heal an existing file — a file whose first line is not the header is
returned untouched, its wrong first line included. -/
theorem mqtt_header_no_self_heal :
    ensure_csv_header_mqtt (some ("old header\nrow1,2,3\r\n").data)
        = some ("old header\nrow1,2,3\r\n").data ∧
      pyStrip (readFirstLine ("old header\nrow1,2,3\r\n").data).1
        ≠ headerJoined mqtt_csv_header := by
  exact ⟨rfl, by decide⟩

/-- C6 (amended): UPS_monitor_PC.py's `ensure_csv_header` creates an absent
file with just the header, and rewrites a file whose stripped first line
differs from the joined header to the header line followed by the
remaining bytes unchanged (so the healed file's first line strips to the
header); UPS_Monitor_PC_MQTT.py's variant only creates an absent file and
never rewrites an existing one. -/
theorem ensure_header_self_heal (firstline rest : List Char)
    (h1 : '\n' ∉ firstline)
    (h2 : pyStrip (firstline ++ ['\n']) ≠ headerJoined monitor_csv_header) :
    ensure_csv_header_pc (some (firstline ++ '\n' :: rest))
        = some (writerowLine monitor_csv_header ++ rest) ∧
      ensure_csv_header_pc none = some (writerowLine monitor_csv_header) ∧
      ensure_csv_header_mqtt none = some (writerowLine mqtt_csv_header) ∧
      (∀ content, ensure_csv_header_mqtt (some content) = some content) ∧
      (∀ t : List Char,
        (readFirstLine (writerowLine monitor_csv_header ++ t)).2 = t ∧
        pyStrip (readFirstLine (writerowLine monitor_csv_header ++ t)).1
          = headerJoined monitor_csv_header) := by
  refine ⟨?_, rfl, rfl, fun content => rfl, ?_⟩
  · simp only [ensure_csv_header_pc, readFirstLine_split firstline rest h1]
    rw [if_pos h2]
  · intro t
    have hsplit : readFirstLine (writerowLine monitor_csv_header ++ t)
        = ((headerJoined monitor_csv_header ++ ['\r']) ++ ['\n'], t) := by
      have harr : writerowLine monitor_csv_header ++ t
          = (headerJoined monitor_csv_header ++ ['\r']) ++ '\n' :: t := by
        simp [writerowLine]
      rw [harr]
      exact readFirstLine_split _ t (by decide)
    rw [hsplit]
    refine ⟨rfl, ?_⟩
    show pyStrip ((headerJoined monitor_csv_header ++ ['\r']) ++ ['\n'])
        = headerJoined monitor_csv_header
    decide

/-- Witness for C6 (amended), healing a file with a stale header line and
one data row. -/
theorem ensure_header_self_heal_witness :
    ensure_csv_header_pc (some (("Timestamp,old").data ++ '\n' :: ("1,2\r\n").data))
      = some (writerowLine monitor_csv_header ++ ("1,2\r\n").data) :=
  (ensure_header_self_heal ("Timestamp,old").data ("1,2\r\n").data
    (by decide) (by decide)).1

/-! ## C7: broker failure never blocks the CSV log -/

/-- C7 counterexample: with the broker publish failing and exactly
LOG_INTERVAL seconds elapsed since the last write ("at least LOG_INTERVAL"
in the claim's words), the CSV step does NOT run — the code requires
strictly more than LOG_INTERVAL seconds. -/
theorem csv_skipped_at_exact_interval :
    (mqtt_publish_then_log .failedStatus 5 0).2.1 = false ∧
      LOG_INTERVAL ≤ (5 : ℚ) - 0 ∧
      publish_mqtt .failedStatus = false := by
  refine ⟨?_, by norm_num [LOG_INTERVAL], rfl⟩
  norm_num [mqtt_publish_then_log, publish_mqtt, LOG_INTERVAL]

/-- C7 (amended): the CSV decision depends only on the elapsed time — it
runs exactly when strictly more than LOG_INTERVAL seconds have passed
since the last write, identically for a successful, failed or
exception-raising publish (whose outcome is reported via the returned
flag); no cycle is aborted by broker state, as `publish_mqtt` catches its
own exceptions and returns a Bool. -/
theorem csv_independent_of_broker (oc : PublishOutcome) (now last : ℚ) :
    (mqtt_publish_then_log oc now last).2.1
        = decide (LOG_INTERVAL < now - last) ∧
      (mqtt_publish_then_log oc now last).2.1
        = (mqtt_publish_then_log .success now last).2.1 ∧
      (mqtt_publish_then_log oc now last).1 = publish_mqtt oc := by
  by_cases hc : LOG_INTERVAL < now - last <;>
    simp [mqtt_publish_then_log, hc]

/-- Witness for C7 (amended): a failed publish with 7 seconds elapsed. -/
theorem csv_independent_of_broker_witness :
    (mqtt_publish_then_log .failedStatus 7 0).2.1
      = decide (LOG_INTERVAL < 7 - 0) :=
  (csv_independent_of_broker .failedStatus 7 0).1

/-! ## C8: field-bus connection lifecycle -/

/-- C8 counterexample: in UPS_monitor_PC.py a cycle that connected and then
raised mid-body ends without `client.close()` having run — the close call
is inside the `try` body, not in a `finally`. -/
theorem monitor_close_skipped_on_exception :
    Ev.connected ∈ monitor_cycle_trace true .raised ∧
      Ev.clientClosed ∉ monitor_cycle_trace true .raised := by
  decide

/-- C8 (amended): in UPS_Monitor_PC_MQTT.py every cycle that opened the
connection ends with `client.close()` (it is the last event, on the normal
and the exception path alike), and both scripts construct a fresh client at
the start of every cycle; in UPS_monitor_PC.py the close runs only when
the cycle body completes without an exception. -/
theorem connection_lifecycle (body : BodyOutcome) :
    Ev.clientClosed ∈ mqtt_cycle_trace true body ∧
      (mqtt_cycle_trace true body).getLast? = some Ev.clientClosed ∧
      (∀ ok : Bool, (mqtt_cycle_trace ok body).head? = some Ev.clientCreated ∧
        (monitor_cycle_trace ok body).head? = some Ev.clientCreated) ∧
      (Ev.clientClosed ∈ monitor_cycle_trace true body ↔ body = .completed) := by
  cases body <;> decide

/-- Witness for C8 (amended): the close event survives an exception in the
MQTT variant. -/
theorem connection_lifecycle_witness :
    Ev.clientClosed ∈ mqtt_cycle_trace true .raised :=
  (connection_lifecycle .raised).1

/-! ## C9: CSV row rendering of unavailable values -/

/-- The character `Nat.digitChar (n % 10)` is always a decimal digit. -/
theorem digitChar_mod_isDigit (n : Nat) : (Nat.digitChar (n % 10)).isDigit = true := by
  have h : n % 10 < 10 := Nat.mod_lt _ (by norm_num)
  set m := n % 10 with hm
  interval_cases m <;> decide

/-- C9 counterexample: an Output Current reading of the 0xFFFF sentinel
(device-reported "no data") is logged to CSV as the number 65535, not as
the empty string — the current cells test only for a failed read, not for
the sentinel. -/
theorem sentinel_current_logged_as_number :
    (mqtt_csv_row ⟨2025, 1, 1, 0, 0, 0⟩
        { battery_voltage := none, output_current := some [0xFFFF],
          battery_temperature := none, device_temperature := none,
          battery_current := none, soc := none, battery_mode := false,
          battery_present := false, temp_sensor_connected := false,
          mqtt_published := false }).getD 2 .empty = .num 65535 ∧
      CsvCell.num 65535 ≠ .empty := by
  constructor
  · norm_num [mqtt_csv_row]
  · exact fun hcon => CsvCell.noConfusion hcon

/-- C9 (amended): the timestamp cell is YYYY-MM-DD HH:MM:SS (four then
five two-digit decimal groups with the claimed separators); the voltage,
temperature and SOC cells of the MQTT row are empty exactly on a failed
read, the temperatures also on the 0xFFFF sentinel; the current cells are
empty only on a failed read and render the 0xFFFF sentinel as the number
65535; and in UPS_monitor_PC.py a failed voltage read leaves the previous
cycle's module-level value in place, so a stale value can be logged. -/
theorem csv_row_unavailable (ts : Tm) (d : MqttCycleData) :
    (∃ y mo dd hh mi ss : List Char,
      strftime_ymd_hms ts
          = y ++ '-' :: mo ++ '-' :: dd ++ ' ' :: hh ++ ':' :: mi ++ ':' :: ss ∧
        y.length = 4 ∧ mo.length = 2 ∧ dd.length = 2 ∧ hh.length = 2 ∧
        mi.length = 2 ∧ ss.length = 2 ∧
        (y ++ mo ++ dd ++ hh ++ mi ++ ss).all Char.isDigit = true) ∧
      (mqtt_csv_row ts d).getD 0 .empty = .str (strftime_ymd_hms ts) ∧
      ((mqtt_csv_row ts d).getD 1 .empty = .empty ↔ d.battery_voltage = none) ∧
      ((mqtt_csv_row ts d).getD 6 .empty = .empty ↔ d.soc = none) ∧
      (d.battery_temperature = none → (mqtt_csv_row ts d).getD 3 .empty = .empty) ∧
      (∀ v vs, d.battery_temperature = some (v :: vs) → v = 0xFFFF →
        (mqtt_csv_row ts d).getD 3 .empty = .empty) ∧
      (d.device_temperature = none → (mqtt_csv_row ts d).getD 4 .empty = .empty) ∧
      (∀ v vs, d.device_temperature = some (v :: vs) → v = 0xFFFF →
        (mqtt_csv_row ts d).getD 4 .empty = .empty) ∧
      (d.output_current = none → (mqtt_csv_row ts d).getD 2 .empty = .empty) ∧
      (∀ v vs, d.output_current = some (v :: vs) →
        (mqtt_csv_row ts d).getD 2 .empty = .num (v : ℚ)) ∧
      (d.battery_current = none → (mqtt_csv_row ts d).getD 5 .empty = .empty) ∧
      (∀ v vs, d.battery_current = some (v :: vs) →
        (mqtt_csv_row ts d).getD 5 .empty = .num (v : ℚ)) ∧
      (∀ prev : Option ℚ, monitor_voltage_update prev none = prev) := by
  refine ⟨⟨pad4 ts.year, pad2 ts.month, pad2 ts.day, pad2 ts.hour,
      pad2 ts.minute, pad2 ts.second, rfl, rfl, rfl, rfl, rfl, rfl, rfl, ?_⟩,
    rfl, ?_, ?_, ?_, ?_, ?_, ?_, ?_, ?_, ?_, ?_, fun prev => rfl⟩
  · simp [pad4, pad2, digitChar_mod_isDigit]
  · cases hv : d.battery_voltage <;> simp [mqtt_csv_row, hv]
  · cases hs : d.soc <;> simp [mqtt_csv_row, hs]
  · intro hbt
    simp [mqtt_csv_row, hbt]
  · intro v vs hbt hv
    simp [mqtt_csv_row, hbt, hv]
  · intro hdt
    simp [mqtt_csv_row, hdt]
  · intro v vs hdt hv
    simp [mqtt_csv_row, hdt, hv]
  · intro hoc
    simp [mqtt_csv_row, hoc]
  · intro v vs hoc
    simp [mqtt_csv_row, hoc]
  · intro hbc
    simp [mqtt_csv_row, hbc]
  · intro v vs hbc
    simp [mqtt_csv_row, hbc]

/-- Witness for C9 (amended): a cycle whose battery-temperature reading is
the sentinel gets an empty temperature cell. -/
theorem csv_row_unavailable_witness :
    (mqtt_csv_row ⟨2025, 1, 1, 0, 0, 0⟩
        { battery_voltage := none, output_current := none,
          battery_temperature := some [0xFFFF], device_temperature := none,
          battery_current := none, soc := none, battery_mode := false,
          battery_present := false, temp_sensor_connected := false,
          mqtt_published := false }).getD 3 .empty = .empty :=
  (csv_row_unavailable ⟨2025, 1, 1, 0, 0, 0⟩
      { battery_voltage := none, output_current := none,
        battery_temperature := some [0xFFFF], device_temperature := none,
        battery_current := none, soc := none, battery_mode := false,
        battery_present := false, temp_sensor_connected := false,
        mqtt_published := false }).2.2.2.2.2.1 0xFFFF [] rfl rfl

/-! ## C10: header/row column alignment -/

/-- C10 (code bug in UPS_monitor_PC.py): the header that file writes names
column 2 "Output Current (mA)" and column 5 "Battery Current (mA)", but
the row it writes puts the battery temperature in column 2 and the output
current in column 5 — the written values are shifted against the file's
own header.  The MQTT variant's row does line up with its header. -/
theorem monitor_row_misaligned :
    monitor_csv_header.getD 2 "" = "Output Current (mA)" ∧
      (monitor_csv_row ⟨2025, 1, 1, 0, 0, 0⟩
          { battery_voltage := some 24, battery_temp_c := some 25,
            device_temp_c := some 30, battery_current := some 100,
            output_current := some 500, soc := some 50 }).getD 2 .empty
        = .num 25 ∧
      monitor_csv_header.getD 5 "" = "Battery Current (mA)" ∧
      (monitor_csv_row ⟨2025, 1, 1, 0, 0, 0⟩
          { battery_voltage := some 24, battery_temp_c := some 25,
            device_temp_c := some 30, battery_current := some 100,
            output_current := some 500, soc := some 50 }).getD 5 .empty
        = .num 500 ∧
      CsvCell.num 25 ≠ CsvCell.num 500 ∧
      mqtt_csv_header.getD 2 "" = "Output Current (mA)" ∧
      (mqtt_csv_row ⟨2025, 1, 1, 0, 0, 0⟩
          { battery_voltage := none, output_current := some [500],
            battery_temperature := none, device_temperature := none,
            battery_current := none, soc := none, battery_mode := false,
            battery_present := false, temp_sensor_connected := false,
            mqtt_published := false }).getD 2 .empty = .num 500 := by
  refine ⟨rfl, ?_, rfl, ?_, ?_, rfl, ?_⟩
  · norm_num [monitor_csv_row, pyRound]
  · norm_num [monitor_csv_row, pyRound]
  · intro hcon
    rw [CsvCell.num.injEq] at hcon
    norm_num at hcon
  · norm_num [mqtt_csv_row]

end UPS
